import Mathlib

/-!
Verification of the livepeer/video-nft bitrate planner, task poller and API
error handling, as a shallow embedding in Lean.

The embedding follows the TypeScript source:
  * `src/src/videonft.ts` (schema types, `getDesiredBitrate`, `makeProfile`),
  * `src/src/api.ts` (`Api.checkNftNormalize`, `Api.waitTask`),
  * `src/unnamed/part_005` (`VodApi.makeRequest`),
  * `src/unnamed/part_001` (the parameterised `getDesiredBitrate`).

Modelling conventions:
  * byte sizes and bitrates are nonnegative integers (`Nat`); the JavaScript
    arithmetic on them is modelled over `Rat`, with `Int.floor` for
    `Math.floor`;
  * optional (`?`) fields become `Option`; the `?? x` / destructuring
    defaults of the source become `Option.getD`;
  * a function that can `throw` returns `Except`;
  * the polling loop of `waitTask` is driven by the finite list of task
    states that the successive `getTask` calls return; an exhausted list
    means the loop is still polling, encoded as a `none` outcome.
-/

set_option autoImplicit false

deriving instance DecidableEq for Except

namespace VideoNft

/-! ## Data model (types/schema, embedded in src/src/videonft.ts) -/

/-- Track type, from the schema field `type` of value "video" or "audio". -/
inductive TrackType where
  | video
  | audio
deriving DecidableEq, Repr

/-- One entry of `asset.videoSpec.tracks`: `bitrate?`, `width?`, `height?`
are all optional in the schema. -/
structure Track where
  type : TrackType
  bitrate : Option Nat
  width : Option Nat
  height : Option Nat
deriving DecidableEq, Repr

/-- `asset.videoSpec`, reduced to the `tracks?` field the planner reads. -/
structure VideoSpec where
  tracks : Option (List Track)
deriving DecidableEq, Repr

/-- A video asset, reduced to the fields the planner reads:
`size?` and `videoSpec?.tracks?`. -/
structure Asset where
  size : Option Nat
  videoSpec : Option VideoSpec
deriving DecidableEq, Repr

/-- `getVideoTrack` from src/src/videonft.ts:
`asset.videoSpec?.tracks?.find(t => t.type === "video")` (the
string comparison is written with double quotes here). -/
def getVideoTrack (asset : Asset) : Option Track :=
  (asset.videoSpec.bind VideoSpec.tracks).bind
    (List.find? (fun t => t.type == TrackType.video))

/-- `asset.videoSpec?.tracks?.find(t => t.type === "audio")`
(inlined in `getDesiredBitrate`). -/
def getAudioTrack (asset : Asset) : Option Track :=
  (asset.videoSpec.bind VideoSpec.tracks).bind
    (List.find? (fun t => t.type == TrackType.audio))

/-- `getVideoTrack(asset)?.bitrate ?? 0`. -/
def videoBitrate (asset : Asset) : Nat :=
  ((getVideoTrack asset).bind Track.bitrate).getD 0

/-- `audioTrack?.bitrate ?? 0`. -/
def audioBitrateOf (asset : Asset) : Nat :=
  ((getAudioTrack asset).bind Track.bitrate).getD 0

/-- `asset.size ?? 0`. -/
def sizeOfAsset (asset : Asset) : Nat :=
  asset.size.getD 0

/-! ## Bitrate planner (src/src/videonft.ts lines 541-583, src/unnamed/part_001) -/

/-- `const openSeaNftSizeLimit = 100_000_000`. -/
def openSeaNftSizeLimit : Nat := 100000000

/-- `const min720pBitrate = 500_000`. -/
def min720pBitrate : Nat := 500000

/-- `const minBitrate = 100_000`; also the default of the `minBitrate`
parameter in src/unnamed/part_001. -/
def minBitrate : Nat := 100000

/-- The single error `getDesiredBitrate` can throw, with message
"Asset is too large to be downscaled to desired size". -/
inductive BitrateError where
  | assetTooLarge
deriving DecidableEq, Repr

/-- `getDesiredBitrate(asset, sizeLimit, minBitrate)` from
src/unnamed/part_001 (the src/src/videonft.ts variant is the same function
with `minBitrate` fixed to the constant `minBitrate = 100_000`).
Returns `Except.ok none` for the `null` result, `Except.ok (some d)` for a
returned bitrate and `Except.error .assetTooLarge` for the thrown error.
`Math.floor((bitrate + audioBitrate) * (sizeLimit / size) - audioBitrate)`
is modelled by `Int.floor` over exact rational arithmetic. -/
def getDesiredBitrate (asset : Asset) (sizeLimit minBitrate : Nat) :
    Except BitrateError (Option Int) :=
  let size := sizeOfAsset asset
  let bitrate := videoBitrate asset
  if size ≤ sizeLimit ∨ bitrate = 0 then
    Except.ok none
  else
    let audioBitrate := audioBitrateOf asset
    let desiredBitrate : Int :=
      ⌊((bitrate : ℚ) + (audioBitrate : ℚ)) * ((sizeLimit : ℚ) / (size : ℚ))
        - (audioBitrate : ℚ)⌋
    if desiredBitrate < (minBitrate : Int) then
      Except.error BitrateError.assetTooLarge
    else
      Except.ok (some desiredBitrate)

/-- Modelled from the spec's formula, for comparison with the code: the
target combined bitrate is `B' = B * (sizeLimitBytes / sizeBytes)` floored to
an integer, and the desired video-only bitrate is
`desired = floor(B') - audioBitrateBps`, where `B` is the video bitrate plus
the audio bitrate (audio taken as `0` when absent). -/
def specDesiredBitrate (asset : Asset) (sizeLimit : Nat) : Int :=
  ⌊((videoBitrate asset : ℚ) + (audioBitrateOf asset : ℚ))
      * ((sizeLimit : ℚ) / (sizeOfAsset asset : ℚ))⌋
    - (audioBitrateOf asset : Int)

/-- Output profile type (FfmpegProfile in the schema), reduced to the fields
`makeProfile` sets. `bitrate` is an `Int` because it is the planner's floored
value. -/
structure FfmpegProfile where
  name : String
  width : Nat
  height : Nat
  bitrate : Int
  fps : Nat
deriving DecidableEq, Repr

/-- The destructuring default `bitrate = 1` in `makeProfile`. -/
def mpBitrate (asset : Asset) : Nat :=
  ((getVideoTrack asset).bind Track.bitrate).getD 1

/-- The destructuring default `width = 0` in `makeProfile`. -/
def mpWidth (asset : Asset) : Nat :=
  ((getVideoTrack asset).bind Track.width).getD 0

/-- The destructuring default `height = 0` in `makeProfile`. -/
def mpHeight (asset : Asset) : Nat :=
  ((getVideoTrack asset).bind Track.height).getD 0

/-- The comparison `height * Math.sqrt(desiredBitrate / bitrate) > 720` of
`makeProfile`, as a decidable predicate. For `0 < bitrate` and
`0 ≤ desiredBitrate` it is the squared form
`720² * bitrate < height² * desiredBitrate`, equivalent to the real
comparison since both sides are nonnegative (lemma `refHeightGt720_iff_real`
below). The remaining branches mirror JavaScript: division by zero gives
`Infinity` (or `NaN` when `0 / 0`), the square root of a negative number is
`NaN`, and every comparison against `NaN` is false. -/
def refHeightGt720 (height bitrate : Nat) (desiredBitrate : Int) : Bool :=
  if bitrate = 0 then
    decide (0 < desiredBitrate) && decide (0 < height)
  else if desiredBitrate < 0 then
    false
  else
    decide ((720 : Int) ^ 2 * (bitrate : Int) < (height : Int) ^ 2 * desiredBitrate)

/-- `makeProfile(asset, desiredBitrate)` from src/src/videonft.ts lines
562-583 (identical in src/unnamed/part_001). -/
def makeProfile (asset : Asset) (desiredBitrate : Int) : FfmpegProfile :=
  let bitrate := mpBitrate asset
  let width := mpWidth asset
  let height := mpHeight asset
  let resolution : String × Nat × Nat :=
    if height < 480 ∨ refHeightGt720 height bitrate desiredBitrate then
      ("low-bitrate", (width, height))
    else if desiredBitrate < (min720pBitrate : Int) then
      ("480p", (854, 480))
    else
      ("720p", (1280, 720))
  { name := resolution.1
    width := resolution.2.1
    height := resolution.2.2
    bitrate := desiredBitrate
    fps := 0 }

/-! ## checkNftNormalize (src/src/api.ts lines 447-461) -/

/-- Result shape of `Api.checkNftNormalize`. -/
structure NormalizeCheck where
  possible : Bool
  desiredProfile : Option FfmpegProfile
deriving DecidableEq, Repr

/-- `Api.checkNftNormalize(asset, sizeLimit)`: wraps `getDesiredBitrate` in
try/catch (`minBitrate` is the constant `100_000` there). `desiredProfile`
starts as `null` and is set only when the returned bitrate is truthy
(`if (desiredBitrate)`), i.e. nonzero and non-null; the `catch` branch
returns `possible: false` with the still-`null` profile. -/
def checkNftNormalize (asset : Asset) (sizeLimit : Nat) : NormalizeCheck :=
  match getDesiredBitrate asset sizeLimit minBitrate with
  | Except.error _ => { possible := false, desiredProfile := none }
  | Except.ok none => { possible := true, desiredProfile := none }
  | Except.ok (some desiredBitrate) =>
    if desiredBitrate = 0 then
      { possible := true, desiredProfile := none }
    else
      { possible := true, desiredProfile := some (makeProfile asset desiredBitrate) }

/-! ## Task poller (src/src/api.ts lines 567-588, src/unnamed/part_005) -/

/-- `status.phase` values from the schema. -/
inductive Phase where
  | pending
  | waiting
  | running
  | failed
  | completed
  | cancelled
deriving DecidableEq, Repr

/-- `task.status`, reduced to the fields `waitTask` reads; all optional in
the schema. Progress is a rational standing for the JavaScript number. -/
structure TaskStatus where
  phase : Option Phase
  progress : Option ℚ
  errorMessage : Option String
deriving DecidableEq, Repr

/-- A remote task, reduced to the fields `waitTask` reads. -/
structure Task where
  id : Option String
  type : Option String
  status : Option TaskStatus
deriving DecidableEq, Repr

/-- `task.status?.phase`. -/
def Task.phase (t : Task) : Option Phase :=
  t.status.bind TaskStatus.phase

/-- `task.status?.progress`. -/
def Task.progress (t : Task) : Option ℚ :=
  t.status.bind TaskStatus.progress

/-- How an optional string renders inside a JavaScript template literal:
`undefined` prints as `"undefined"`. -/
def jsOptString (s : Option String) : String :=
  s.getD "undefined"

/-- The message of the error thrown by `waitTask` on a failed task:
`` `${task.type} task failed. error: ${task.status.errorMessage}` ``. -/
def taskFailedMessage (t : Task) : String :=
  jsOptString t.type ++ " task failed. error: "
    ++ jsOptString (t.status.bind TaskStatus.errorMessage)

/-- The progress values reported during one loop iteration on `task`:
`const progress = task.status?.progress;
if (progress && progress !== lastProgress) reportProgress(progress)` —
one report when the progress is truthy (nonzero) and differs from
`lastProgress`, none otherwise. -/
def progressReport (lastProgress : ℚ) (task : Task) : List ℚ :=
  match task.progress with
  | some p => if p ≠ 0 ∧ p ≠ lastProgress then [p] else []
  | none => []

/-- The value of `lastProgress` after one loop iteration on `task`: it is
updated only when the callback fired. -/
def progressAfter (lastProgress : ℚ) (task : Task) : ℚ :=
  match task.progress with
  | some p => if p ≠ 0 ∧ p ≠ lastProgress then p else lastProgress
  | none => lastProgress

/-- The loop of `Api.waitTask`, driven by the list `polls` of tasks that the
successive `this.vod.getTask` calls return. The accumulator `lastProgress`
starts at `0`. Returns the list of reported progress values and the outcome:
`some (Except.ok t)` when the loop exits on a completed task `t`,
`some (Except.error msg)` when it exits on a failed task, and `none` when
`polls` is exhausted with the loop still running. -/
def waitTaskGo (lastProgress : ℚ) (task : Task) (polls : List Task) :
    List ℚ × Option (Except String Task) :=
  if task.phase = some Phase.completed ∨ task.phase = some Phase.failed then
    ([],
      some (if task.phase = some Phase.failed then
        Except.error (taskFailedMessage task)
      else
        Except.ok task))
  else
    match polls with
    | [] => (progressReport lastProgress task, none)
    | next :: rest =>
      let r := waitTaskGo (progressAfter lastProgress task) next rest
      (progressReport lastProgress task ++ r.1, r.2)

/-- `Api.waitTask(task, reportProgress)`: `let lastProgress = 0` then the
polling loop. -/
def waitTask (task : Task) (polls : List Task) :
    List ℚ × Option (Except String Task) :=
  waitTaskGo 0 task polls

/-! ## Remote request errors (src/unnamed/part_005, `VodApi.makeRequest`) -/

/-- A JSON value, modelling the `data` of an axios response. Numbers are
restricted to integers (the response bodies relevant here carry none). -/
inductive Json where
  | null
  | bool (b : Bool)
  | num (n : Int)
  | str (s : String)
  | arr (elems : List Json)
  | obj (fields : List (String × Json))

/-- A lowercase hexadecimal digit, for the unicode escapes of
`JSON.stringify`. -/
def hexDigit (n : Nat) : Char :=
  if n < 10 then Char.ofNat (48 + n) else Char.ofNat (87 + n)

/-- Escaping applied by `JSON.stringify` to one string character
(ECMA-262 QuoteJSONString): quote and backslash get a backslash escape;
code points below 0x20 get their short escapes for backspace, tab, line
feed, form feed and carriage return, and a four-digit lowercase `\u00xx`
escape otherwise; every other character is emitted as itself. -/
def escapeJsonChar (c : Char) : String :=
  if c = '"' then "\\\""
  else if c = '\\' then "\\\\"
  else if c.toNat < 32 then
    if c.toNat = 8 then "\\b"
    else if c.toNat = 9 then "\\t"
    else if c.toNat = 10 then "\\n"
    else if c.toNat = 12 then "\\f"
    else if c.toNat = 13 then "\\r"
    else
      "\\u00" ++ String.singleton (hexDigit (c.toNat / 16))
        ++ String.singleton (hexDigit (c.toNat % 16))
  else String.singleton c

/-- Escaping applied by `JSON.stringify` to string contents. -/
def escapeJsonString (s : String) : String :=
  s.foldl (fun acc c => acc ++ escapeJsonChar c) ""

mutual

/-- `JSON.stringify` on the modelled JSON values. -/
def Json.stringify : Json → String
  | Json.null => "null"
  | Json.bool true => "true"
  | Json.bool false => "false"
  | Json.num n => toString n
  | Json.str s => "\"" ++ escapeJsonString s ++ "\""
  | Json.arr elems => "[" ++ String.intercalate "," (Json.stringifyList elems) ++ "]"
  | Json.obj fields =>
    "\x7b" ++ String.intercalate "," (Json.stringifyFields fields) ++ "\x7d"

/-- `JSON.stringify` of each element of an array. -/
def Json.stringifyList : List Json → List String
  | [] => []
  | j :: js => Json.stringify j :: Json.stringifyList js

/-- `JSON.stringify` of each field of an object. -/
def Json.stringifyFields : List (String × Json) → List String
  | [] => []
  | (k, v) :: fs =>
    ("\"" ++ escapeJsonString k ++ "\":" ++ Json.stringify v) :: Json.stringifyFields fs

end

mutual

/-- `String(x)`: how a JSON value renders inside a JavaScript template
literal (`${msg}`). Strings render without quotes; arrays join their
elements with commas, rendering `null` entries as the empty string; objects
render as `[object Object]`. -/
def Json.display : Json → String
  | Json.null => "null"
  | Json.bool true => "true"
  | Json.bool false => "false"
  | Json.num n => toString n
  | Json.str s => s
  | Json.arr elems => String.intercalate "," (Json.displayList elems)
  | Json.obj _ => "[object Object]"

/-- `Array.prototype.join` element rendering: `null` becomes empty. -/
def Json.displayList : List Json → List String
  | [] => []
  | Json.null :: js => "" :: Json.displayList js
  | j :: js => Json.display j :: Json.displayList js

end

/-- `data.errors` when it is an array (`Array.isArray(data.errors)`):
property lookup on the object's fields, `none` for non-objects and for
non-array `errors` values. -/
def Json.errorsField : Json → Option (List Json)
  | Json.obj fields =>
    match fields.find? (fun kv => kv.1 == "errors") with
    | some (_, Json.arr elems) => some elems
    | _ => none
  | _ => none

/-- Outcome of the axios request inside `makeRequest`: a 2xx response with a
body, a non-2xx HTTP response (axios rejects it with `err.response`
carrying `status`, `statusText` and `data`), or a failure with no HTTP
response (network error), which `makeRequest` rethrows as-is. -/
inductive HttpOutcome where
  | ok (data : Json)
  | httpError (status : Nat) (statusText : String) (data : Json)
  | networkError (message : String)

/-- What `makeRequest` can throw: an `Error` with a message it constructs
(or the rethrown non-HTTP failure), or the `TypeError` raised by the
unguarded property access `data.errors` when the response body is JSON
`null` — its message is runtime-defined and not modelled. -/
inductive JsError where
  | error (message : String)
  | typeError
deriving DecidableEq, Repr

/-- `VodApi.makeRequest` (src/unnamed/part_005 lines 105-124): on a non-2xx
response, `msg` is `JSON.stringify(data)`, replaced by `data.errors[0]` when
`data.errors` is a non-empty array, and the thrown error's message is
`` `Request to ${path} failed (${status} ${statusText}): ${msg}` ``.
When the body is JSON `null`, the access `data.errors` itself throws a
`TypeError` (after `JSON.stringify(data)` has already succeeded), so the
formatted error is never constructed; a primitive, array or object body
does not throw there. -/
def makeRequest (path : String) (outcome : HttpOutcome) : Except JsError Json :=
  match outcome with
  | HttpOutcome.ok data => Except.ok data
  | HttpOutcome.networkError message => Except.error (JsError.error message)
  | HttpOutcome.httpError status statusText data =>
    match data with
    | Json.null => Except.error JsError.typeError
    | _ =>
      let msg :=
        match Json.errorsField data with
        | some (e :: _) => Json.display e
        | _ => Json.stringify data
      Except.error
        (JsError.error
          ("Request to " ++ path ++ " failed (" ++ toString status ++ " "
            ++ statusText ++ "): " ++ msg))

/-! ## Concrete fixtures (from the spec's concrete scenarios) -/

/-- A 1920x1080 video track with the given bitrate. -/
def videoTrack1080 (bitrate : Nat) : Track :=
  { type := TrackType.video, bitrate := some bitrate,
    width := some 1920, height := some 1080 }

/-- An audio track with the given bitrate. -/
def audioTrack (bitrate : Nat) : Track :=
  { type := TrackType.audio, bitrate := some bitrate, width := none, height := none }

/-- Scenario 2 of the spec: 200 MB asset, 2 Mbps 1080p video, 128 kbps
audio. -/
def scenario2Asset : Asset :=
  { size := some 200000000,
    videoSpec := some { tracks := some [videoTrack1080 2000000, audioTrack 128000] } }

/-- Scenario 1 of the spec: 50 MB asset, 1 Mbps video, already under the
limit. -/
def underLimitAsset : Asset :=
  { size := some 50000000,
    videoSpec := some { tracks := some [videoTrack1080 1000000] } }

/-- Scenario 3 of the spec: 2 GB asset whose desired bitrate collapses below
the floor. -/
def hugeAsset : Asset :=
  { size := some 2000000000,
    videoSpec := some { tracks := some [videoTrack1080 2000000, audioTrack 128000] } }

/-- An asset with no `size` field at all. -/
def noSizeAsset : Asset :=
  { size := none,
    videoSpec := some { tracks := some [videoTrack1080 2000000] } }

/-- A 200 MB asset with a 200 kbps video track and no audio: its desired
bitrate is exactly the default floor of 100 kbps. -/
def boundaryAsset : Asset :=
  { size := some 200000000,
    videoSpec := some { tracks := some [videoTrack1080 200000] } }

/-- A running task at the given progress. -/
def runningTask (p : ℚ) : Task :=
  { id := some "t1", type := some "transcode",
    status := some { phase := some Phase.running, progress := some p,
                     errorMessage := none } }

/-- A pending task with no progress yet. -/
def pendingTask : Task :=
  { id := some "t1", type := some "transcode",
    status := some { phase := some Phase.pending, progress := none,
                     errorMessage := none } }

/-- A completed task. -/
def completedTask : Task :=
  { id := some "t1", type := some "transcode",
    status := some { phase := some Phase.completed, progress := some 1,
                     errorMessage := none } }

/-- A failed task carrying the error message of scenario 6. -/
def failedTask : Task :=
  { id := some "t1", type := some "transcode",
    status := some { phase := some Phase.failed, progress := none,
                     errorMessage := some "encode error" } }

/-- A cancelled task. -/
def cancelledTask : Task :=
  { id := some "t1", type := some "transcode",
    status := some { phase := some Phase.cancelled, progress := none,
                     errorMessage := none } }

/-! ## Theorems: bitrate planner -/

/-- On an asset strictly over the limit with a nonzero video bitrate, the
code's floored expression equals the spec's `floor(B * ratio) - audio`,
and `getDesiredBitrate` reduces to the final threshold test on it. -/
lemma getDesiredBitrate_of_over (asset : Asset) (sizeLimit minB : Nat)
    (hsize : sizeLimit < sizeOfAsset asset) (hbr : videoBitrate asset ≠ 0) :
    getDesiredBitrate asset sizeLimit minB =
      if specDesiredBitrate asset sizeLimit < (minB : Int) then
        Except.error BitrateError.assetTooLarge
      else
        Except.ok (some (specDesiredBitrate asset sizeLimit)) := by
  have hcond : ¬(sizeOfAsset asset ≤ sizeLimit ∨ videoBitrate asset = 0) := by
    push_neg
    exact ⟨hsize, hbr⟩
  have hfloor :
      ⌊((videoBitrate asset : ℚ) + (audioBitrateOf asset : ℚ))
          * ((sizeLimit : ℚ) / (sizeOfAsset asset : ℚ))
          - (audioBitrateOf asset : ℚ)⌋
        = specDesiredBitrate asset sizeLimit := by
    rw [specDesiredBitrate, Int.floor_sub_nat]
  rw [getDesiredBitrate]
  simp only [hfloor]
  rw [if_neg hcond]

/-- Any bitrate actually returned by `getDesiredBitrate` is at least the
minimum and strictly below the asset's current video bitrate. -/
lemma getDesiredBitrate_ok_bounds (asset : Asset) (sizeLimit minB : Nat)
    (d : Int) (h : getDesiredBitrate asset sizeLimit minB = Except.ok (some d)) :
    (minB : Int) ≤ d ∧ d < (videoBitrate asset : Int) := by
  by_cases hcond : sizeOfAsset asset ≤ sizeLimit ∨ videoBitrate asset = 0
  · rw [getDesiredBitrate] at h
    simp only [if_pos hcond] at h
    exact absurd h (by simp)
  · push_neg at hcond
    obtain ⟨hsize, hbr⟩ := hcond
    rw [getDesiredBitrate_of_over asset sizeLimit minB hsize hbr] at h
    by_cases hlt : specDesiredBitrate asset sizeLimit < (minB : Int)
    · rw [if_pos hlt] at h
      exact absurd h (by simp)
    · rw [if_neg hlt] at h
      have hd : d = specDesiredBitrate asset sizeLimit := by
        simpa using h.symm
      subst hd
      refine ⟨not_lt.mp hlt, ?_⟩
      -- the returned value is strictly below the current video bitrate
      have hs0 : (0 : ℚ) < (sizeOfAsset asset : ℚ) := by
        have : 0 < sizeOfAsset asset := Nat.lt_of_le_of_lt (Nat.zero_le _) hsize
        exact_mod_cast this
      have hratio : ((sizeLimit : ℚ) / (sizeOfAsset asset : ℚ)) < 1 := by
        rw [div_lt_one hs0]
        exact_mod_cast hsize
      have hBpos : (0 : ℚ) < (videoBitrate asset : ℚ) + (audioBitrateOf asset : ℚ) := by
        have h1 : 0 < videoBitrate asset := Nat.pos_of_ne_zero hbr
        have h2 : (0 : ℚ) < (videoBitrate asset : ℚ) := by exact_mod_cast h1
        have h3 : (0 : ℚ) ≤ (audioBitrateOf asset : ℚ) := by positivity
        linarith
      have hmul :
          ((videoBitrate asset : ℚ) + (audioBitrateOf asset : ℚ))
              * ((sizeLimit : ℚ) / (sizeOfAsset asset : ℚ))
            < (videoBitrate asset : ℚ) + (audioBitrateOf asset : ℚ) := by
        calc ((videoBitrate asset : ℚ) + (audioBitrateOf asset : ℚ))
              * ((sizeLimit : ℚ) / (sizeOfAsset asset : ℚ))
            < ((videoBitrate asset : ℚ) + (audioBitrateOf asset : ℚ)) * 1 :=
              mul_lt_mul_of_pos_left hratio hBpos
          _ = (videoBitrate asset : ℚ) + (audioBitrateOf asset : ℚ) := mul_one _
      have hfl :
          (⌊((videoBitrate asset : ℚ) + (audioBitrateOf asset : ℚ))
              * ((sizeLimit : ℚ) / (sizeOfAsset asset : ℚ))⌋ : ℚ)
            ≤ ((videoBitrate asset : ℚ) + (audioBitrateOf asset : ℚ))
              * ((sizeLimit : ℚ) / (sizeOfAsset asset : ℚ)) := Int.floor_le _
      have hq :
          ((specDesiredBitrate asset sizeLimit : Int) : ℚ)
            < (videoBitrate asset : ℚ) := by
        rw [specDesiredBitrate]
        push_cast
        linarith
      exact_mod_cast hq

/-- Claim C1: for every asset whose size strictly exceeds the size limit and
whose video track has a nonzero bitrate, `getDesiredBitrate` returns the
integer floor of `B * (sizeLimitBytes / sizeBytes)` minus the audio bitrate
(`B` being video plus audio bitrate, audio taken as `0` when absent) —
unless it fails with the asset-too-large error. -/
theorem getDesiredBitrate_returns_spec_formula (asset : Asset)
    (sizeLimit minB : Nat)
    (hsize : sizeLimit < sizeOfAsset asset) (hbr : videoBitrate asset ≠ 0) :
    getDesiredBitrate asset sizeLimit minB = Except.error BitrateError.assetTooLarge
      ∨ getDesiredBitrate asset sizeLimit minB
          = Except.ok (some (specDesiredBitrate asset sizeLimit)) := by
  rw [getDesiredBitrate_of_over asset sizeLimit minB hsize hbr]
  by_cases hlt : specDesiredBitrate asset sizeLimit < (minB : Int)
  · exact Or.inl (if_pos hlt)
  · exact Or.inr (if_neg hlt)

/-- Witness for C1 at the spec's scenario 2: a 200 MB asset with a 2 Mbps
video track and 128 kbps audio yields exactly 936000 bps. -/
theorem getDesiredBitrate_returns_spec_formula_witness :
    openSeaNftSizeLimit < sizeOfAsset scenario2Asset
      ∧ videoBitrate scenario2Asset ≠ 0
      ∧ (getDesiredBitrate scenario2Asset openSeaNftSizeLimit minBitrate
            = Except.error BitrateError.assetTooLarge
          ∨ getDesiredBitrate scenario2Asset openSeaNftSizeLimit minBitrate
              = Except.ok (some (specDesiredBitrate scenario2Asset openSeaNftSizeLimit))) :=
  ⟨by decide, by decide,
    getDesiredBitrate_returns_spec_formula scenario2Asset openSeaNftSizeLimit
      minBitrate (by decide) (by decide)⟩

/-- Claim C2: for every asset over the size limit with a video bitrate,
`getDesiredBitrate` fails with the asset-too-large error exactly when the
computed desired bitrate is strictly below the minimum acceptable bitrate;
a desired bitrate exactly equal to that floor is returned, not an error. -/
theorem getDesiredBitrate_error_iff_below_min (asset : Asset)
    (sizeLimit minB : Nat)
    (hsize : sizeLimit < sizeOfAsset asset) (hbr : videoBitrate asset ≠ 0) :
    (getDesiredBitrate asset sizeLimit minB = Except.error BitrateError.assetTooLarge
        ↔ specDesiredBitrate asset sizeLimit < (minB : Int))
      ∧ (specDesiredBitrate asset sizeLimit = (minB : Int) →
          getDesiredBitrate asset sizeLimit minB = Except.ok (some (minB : Int))) := by
  rw [getDesiredBitrate_of_over asset sizeLimit minB hsize hbr]
  constructor
  · constructor
    · intro h
      by_contra hlt
      rw [if_neg hlt] at h
      exact absurd h (by simp)
    · intro hlt
      rw [if_pos hlt]
  · intro heq
    rw [if_neg (by rw [heq]; exact lt_irrefl _), heq]

/-- Witness for C2: the boundary asset (200 MB, 200 kbps video, no audio)
has desired bitrate exactly 100000 = the default minimum, and is accepted. -/
theorem getDesiredBitrate_error_iff_below_min_witness :
    openSeaNftSizeLimit < sizeOfAsset boundaryAsset
      ∧ videoBitrate boundaryAsset ≠ 0
      ∧ ((getDesiredBitrate boundaryAsset openSeaNftSizeLimit minBitrate
              = Except.error BitrateError.assetTooLarge
            ↔ specDesiredBitrate boundaryAsset openSeaNftSizeLimit < (minBitrate : Int))
          ∧ (specDesiredBitrate boundaryAsset openSeaNftSizeLimit = (minBitrate : Int) →
              getDesiredBitrate boundaryAsset openSeaNftSizeLimit minBitrate
                = Except.ok (some (minBitrate : Int)))) :=
  ⟨by decide, by decide,
    getDesiredBitrate_error_iff_below_min boundaryAsset openSeaNftSizeLimit
      minBitrate (by decide) (by decide)⟩

/-- Claim C4: `getDesiredBitrate` returns null whenever the asset's size is
at most the size limit (a missing size counting as 0) or the asset has no
video track bitrate; no error is raised in these cases. -/
theorem getDesiredBitrate_null_under_limit_or_no_video (asset : Asset)
    (sizeLimit minB : Nat)
    (h : sizeOfAsset asset ≤ sizeLimit ∨ videoBitrate asset = 0) :
    getDesiredBitrate asset sizeLimit minB = Except.ok none := by
  rw [getDesiredBitrate]
  simp only [if_pos h]

/-- Witness for C4: an asset with no size field at all is under any limit,
including a zero limit. -/
theorem getDesiredBitrate_null_under_limit_or_no_video_witness :
    (sizeOfAsset noSizeAsset ≤ 0 ∨ videoBitrate noSizeAsset = 0)
      ∧ getDesiredBitrate noSizeAsset 0 minBitrate = Except.ok none :=
  ⟨by decide,
    getDesiredBitrate_null_under_limit_or_no_video noSizeAsset 0 minBitrate (by decide)⟩

/-- Claim C9: whenever `getDesiredBitrate` returns a number `d`, then `d` is
at least the minimum acceptable bitrate and strictly less than the asset's
original video track bitrate — the planner always shrinks the video
bitrate. -/
theorem getDesiredBitrate_shrinks (asset : Asset) (sizeLimit minB : Nat)
    (d : Int) (h : getDesiredBitrate asset sizeLimit minB = Except.ok (some d)) :
    (minB : Int) ≤ d ∧ d < (videoBitrate asset : Int) :=
  getDesiredBitrate_ok_bounds asset sizeLimit minB d h

/-- Witness for C9 at the spec's scenario 2: 100000 ≤ 936000 < 2000000. -/
theorem getDesiredBitrate_shrinks_witness :
    getDesiredBitrate scenario2Asset openSeaNftSizeLimit minBitrate
        = Except.ok (some 936000)
      ∧ ((minBitrate : Int) ≤ 936000
          ∧ (936000 : Int) < (videoBitrate scenario2Asset : Int)) :=
  ⟨by with_unfolding_all rfl,
    getDesiredBitrate_shrinks scenario2Asset openSeaNftSizeLimit minBitrate
      936000 (by with_unfolding_all rfl)⟩

/-- Claim C7: `checkNftNormalize` never throws, and returns
possible/profile according to the three outcomes of `getDesiredBitrate`:
null gives `(possible := true, no profile)`, the asset-too-large error gives
`(possible := false, no profile)`, and a returned bitrate gives
`(possible := true, makeProfile asset bitrate)`. (The embedding is a total
function, so "never throws" is reflected in its type.) -/
theorem checkNftNormalize_cases (asset : Asset) (sizeLimit : Nat) :
    (getDesiredBitrate asset sizeLimit minBitrate = Except.ok none →
        checkNftNormalize asset sizeLimit
          = { possible := true, desiredProfile := none })
      ∧ (∀ e, getDesiredBitrate asset sizeLimit minBitrate = Except.error e →
          checkNftNormalize asset sizeLimit
            = { possible := false, desiredProfile := none })
      ∧ (∀ d, getDesiredBitrate asset sizeLimit minBitrate = Except.ok (some d) →
          checkNftNormalize asset sizeLimit
            = { possible := true, desiredProfile := some (makeProfile asset d) }) := by
  refine ⟨?_, ?_, ?_⟩
  · intro h
    rw [checkNftNormalize, h]
  · intro e h
    rw [checkNftNormalize, h]
  · intro d h
    have hd0 : ¬d = 0 := by
      have hge := (getDesiredBitrate_ok_bounds asset sizeLimit minBitrate d h).1
      have : (100000 : Int) ≤ d := by
        simpa [minBitrate] using hge
      omega
    rw [checkNftNormalize, h]
    simp only [if_neg hd0]

/-- Witness for C7, exercising all three branches on concrete assets:
under the limit, impossibly large, and scenario 2. -/
theorem checkNftNormalize_cases_witness :
    (getDesiredBitrate underLimitAsset openSeaNftSizeLimit minBitrate
          = Except.ok none
        ∧ checkNftNormalize underLimitAsset openSeaNftSizeLimit
          = { possible := true, desiredProfile := none })
      ∧ (getDesiredBitrate hugeAsset openSeaNftSizeLimit minBitrate
            = Except.error BitrateError.assetTooLarge
          ∧ checkNftNormalize hugeAsset openSeaNftSizeLimit
            = { possible := false, desiredProfile := none })
      ∧ (getDesiredBitrate scenario2Asset openSeaNftSizeLimit minBitrate
            = Except.ok (some 936000)
          ∧ checkNftNormalize scenario2Asset openSeaNftSizeLimit
            = { possible := true,
                desiredProfile := some (makeProfile scenario2Asset 936000) }) :=
  ⟨⟨by with_unfolding_all rfl,
      (checkNftNormalize_cases underLimitAsset openSeaNftSizeLimit).1
        (by with_unfolding_all rfl)⟩,
    ⟨by with_unfolding_all rfl,
      (checkNftNormalize_cases hugeAsset openSeaNftSizeLimit).2.1
        BitrateError.assetTooLarge (by with_unfolding_all rfl)⟩,
    ⟨by with_unfolding_all rfl,
      (checkNftNormalize_cases scenario2Asset openSeaNftSizeLimit).2.2
        936000 (by with_unfolding_all rfl)⟩⟩

/-! ## Theorems: makeProfile -/

/-- For a positive current bitrate and nonnegative desired bitrate, the
decidable squared comparison used in the embedding agrees with the source's
real-valued `height * Math.sqrt(desiredBitrate / bitrate) > 720`. -/
lemma refHeightGt720_iff_real (height bitrate : Nat) (d : Int)
    (hb : 0 < bitrate) (hd : 0 ≤ d) :
    refHeightGt720 height bitrate d = true
      ↔ 720 < (height : ℝ) * Real.sqrt ((d : ℝ) / (bitrate : ℝ)) := by
  have hb0 : bitrate ≠ 0 := Nat.pos_iff_ne_zero.mp hb
  have hbR : (0 : ℝ) < (bitrate : ℝ) := by exact_mod_cast hb
  have hdR : (0 : ℝ) ≤ (d : ℝ) := by exact_mod_cast hd
  rw [refHeightGt720, if_neg hb0, if_neg (not_lt.mpr hd)]
  simp only [decide_eq_true_eq]
  have hmul : (height : ℝ) * Real.sqrt ((d : ℝ) / (bitrate : ℝ))
      = Real.sqrt ((height : ℝ) ^ 2 * ((d : ℝ) / (bitrate : ℝ))) := by
    rw [Real.sqrt_mul (sq_nonneg _), Real.sqrt_sq (Nat.cast_nonneg height)]
  rw [hmul, show (720 : ℝ) = ((720 : Nat) : ℝ) by norm_num,
    Real.lt_sqrt (Nat.cast_nonneg 720)]
  have hdiv : ((height : ℝ) ^ 2 * ((d : ℝ) / (bitrate : ℝ)))
      = ((height : ℝ) ^ 2 * (d : ℝ)) / (bitrate : ℝ) := by
    ring
  rw [hdiv, lt_div_iff₀ hbR]
  constructor
  · intro h
    have h' : (720 : ℝ) ^ 2 * (bitrate : ℝ) < (height : ℝ) ^ 2 * (d : ℝ) := by
      exact_mod_cast h
    push_cast
    linarith
  · intro h
    have h' : (720 : ℝ) ^ 2 * (bitrate : ℝ) < (height : ℝ) ^ 2 * (d : ℝ) := by
      push_cast at h ⊢
      linarith
    exact_mod_cast h'

/-- Claim C3: `makeProfile` picks the resolution by first-match-wins:
track height below 480 or reference height
`height * sqrt(desiredBitrate / currentBitrate)` above 720 keeps the
original width and height under the name "low-bitrate"; otherwise a desired
bitrate below 500000 gives 854x480 named "480p"; otherwise 1280x720 named
"720p". The returned profile always has `fps = 0` (and carries the desired
bitrate). Stated for a positive current bitrate and nonnegative desired
bitrate so that the reference height is a well-defined real number. -/
theorem makeProfile_resolution_cases (asset : Asset) (d : Int)
    (hb : 0 < mpBitrate asset) (hd : 0 ≤ d) :
    (makeProfile asset d).fps = 0
      ∧ (makeProfile asset d).bitrate = d
      ∧ ((mpHeight asset < 480
            ∨ 720 < (mpHeight asset : ℝ)
                * Real.sqrt ((d : ℝ) / (mpBitrate asset : ℝ)) →
          makeProfile asset d
            = { name := "low-bitrate", width := mpWidth asset,
                height := mpHeight asset, bitrate := d, fps := 0 })
        ∧ (¬(mpHeight asset < 480
              ∨ 720 < (mpHeight asset : ℝ)
                  * Real.sqrt ((d : ℝ) / (mpBitrate asset : ℝ))) →
            d < 500000 →
            makeProfile asset d
              = { name := "480p", width := 854, height := 480,
                  bitrate := d, fps := 0 })
        ∧ (¬(mpHeight asset < 480
              ∨ 720 < (mpHeight asset : ℝ)
                  * Real.sqrt ((d : ℝ) / (mpBitrate asset : ℝ))) →
            500000 ≤ d →
            makeProfile asset d
              = { name := "720p", width := 1280, height := 720,
                  bitrate := d, fps := 0 })) := by
  have hiff := refHeightGt720_iff_real (mpHeight asset) (mpBitrate asset) d hb hd
  have hcond : (mpHeight asset < 480
        ∨ refHeightGt720 (mpHeight asset) (mpBitrate asset) d = true)
      ↔ (mpHeight asset < 480
        ∨ 720 < (mpHeight asset : ℝ)
            * Real.sqrt ((d : ℝ) / (mpBitrate asset : ℝ))) := by
    rw [hiff]
  refine ⟨?_, ?_, ?_, ?_, ?_⟩
  · rw [makeProfile]
  · rw [makeProfile]
  · intro h
    rw [makeProfile, if_pos (hcond.mpr h)]
  · intro h hlt
    rw [makeProfile, if_neg (fun hc => h (hcond.mp hc)),
      if_pos (show d < ((min720pBitrate : Nat) : Int) by
        simp only [min720pBitrate]; exact_mod_cast hlt)]
  · intro h hge
    rw [makeProfile, if_neg (fun hc => h (hcond.mp hc)),
      if_neg (not_lt.mpr (show ((min720pBitrate : Nat) : Int) ≤ d by
        simp only [min720pBitrate]; exact_mod_cast hge))]

/-- Witness for C3 at the spec's scenario 2: height 1080, current bitrate
2 Mbps, desired 936 kbps; the reference height is about 739 > 720, so the
profile keeps 1920x1080 and is named "low-bitrate", with fps 0. -/
theorem makeProfile_resolution_cases_witness :
    0 < mpBitrate scenario2Asset
      ∧ (0 : Int) ≤ 936000
      ∧ (makeProfile scenario2Asset 936000).fps = 0
      ∧ (makeProfile scenario2Asset 936000).bitrate = 936000
      ∧ ((mpHeight scenario2Asset < 480
            ∨ 720 < (mpHeight scenario2Asset : ℝ)
                * Real.sqrt ((936000 : ℝ) / (mpBitrate scenario2Asset : ℝ)) →
          makeProfile scenario2Asset 936000
            = { name := "low-bitrate", width := mpWidth scenario2Asset,
                height := mpHeight scenario2Asset, bitrate := 936000, fps := 0 })
        ∧ (¬(mpHeight scenario2Asset < 480
              ∨ 720 < (mpHeight scenario2Asset : ℝ)
                  * Real.sqrt ((936000 : ℝ) / (mpBitrate scenario2Asset : ℝ))) →
            (936000 : Int) < 500000 →
            makeProfile scenario2Asset 936000
              = { name := "480p", width := 854, height := 480,
                  bitrate := 936000, fps := 0 })
        ∧ (¬(mpHeight scenario2Asset < 480
              ∨ 720 < (mpHeight scenario2Asset : ℝ)
                  * Real.sqrt ((936000 : ℝ) / (mpBitrate scenario2Asset : ℝ))) →
            (500000 : Int) ≤ 936000 →
            makeProfile scenario2Asset 936000
              = { name := "720p", width := 1280, height := 720,
                  bitrate := 936000, fps := 0 })) :=
  ⟨by decide, by decide,
    makeProfile_resolution_cases scenario2Asset 936000 (by decide) (by decide)⟩

/-! ## Theorems: task poller -/

/-- Unfolding equation: no progress value, no report. -/
lemma progressReport_none {last : ℚ} {t : Task} (h : t.progress = none) :
    progressReport last t = [] := by
  rw [progressReport, h]

/-- Unfolding equation for a present progress value. -/
lemma progressReport_some {last : ℚ} {t : Task} {q : ℚ}
    (h : t.progress = some q) :
    progressReport last t = if q ≠ 0 ∧ q ≠ last then [q] else [] := by
  rw [progressReport, h]

/-- Unfolding equation: no progress value, unchanged accumulator. -/
lemma progressAfter_none {last : ℚ} {t : Task} (h : t.progress = none) :
    progressAfter last t = last := by
  rw [progressAfter, h]

/-- Unfolding equation for a present progress value. -/
lemma progressAfter_some {last : ℚ} {t : Task} {q : ℚ}
    (h : t.progress = some q) :
    progressAfter last t = if q ≠ 0 ∧ q ≠ last then q else last := by
  rw [progressAfter, h]

/-- The reported list of one iteration is empty (with the accumulator
unchanged) or a nonzero singleton that differs from the accumulator and
becomes the new accumulator. -/
lemma progressReport_cases (last : ℚ) (t : Task) :
    (progressReport last t = [] ∧ progressAfter last t = last)
      ∨ ∃ p, progressReport last t = [p] ∧ p ≠ 0 ∧ p ≠ last
          ∧ progressAfter last t = p := by
  cases ht : t.progress with
  | none => exact Or.inl ⟨progressReport_none ht, progressAfter_none ht⟩
  | some q =>
    by_cases hc : q ≠ 0 ∧ q ≠ last
    · refine Or.inr ⟨q, ?_, hc.1, hc.2, ?_⟩
      · rw [progressReport_some ht, if_pos hc]
      · rw [progressAfter_some ht, if_pos hc]
    · refine Or.inl ⟨?_, ?_⟩
      · rw [progressReport_some ht, if_neg hc]
      · rw [progressAfter_some ht, if_neg hc]

/-- Invariant of the polling loop: prefixing the current accumulator to the
reported values gives a list with no two adjacent entries equal, and no
reported value is zero. -/
lemma waitTaskGo_chain (polls : List Task) :
    ∀ (last : ℚ) (t : Task),
      List.Chain' (fun a b => a ≠ b) (last :: (waitTaskGo last t polls).1)
        ∧ ∀ p ∈ (waitTaskGo last t polls).1, p ≠ 0 := by
  induction polls with
  | nil =>
    intro last t
    rw [waitTaskGo]
    by_cases hterm : t.phase = some Phase.completed ∨ t.phase = some Phase.failed
    · rw [if_pos hterm]
      exact ⟨List.chain'_singleton last, by simp⟩
    · rw [if_neg hterm]
      rcases progressReport_cases last t with ⟨hnil, _⟩ | ⟨p, hp, hp0, hpl, _⟩
      · rw [hnil]
        exact ⟨List.chain'_singleton last, by simp⟩
      · rw [hp]
        constructor
        · rw [List.chain'_cons]
          exact ⟨Ne.symm hpl, List.chain'_singleton p⟩
        · intro q hq
          rw [List.mem_singleton.mp hq]
          exact hp0
  | cons next rest ih =>
    intro last t
    rw [waitTaskGo]
    by_cases hterm : t.phase = some Phase.completed ∨ t.phase = some Phase.failed
    · rw [if_pos hterm]
      exact ⟨List.chain'_singleton last, by simp⟩
    · rw [if_neg hterm]
      rcases progressReport_cases last t with ⟨hnil, hafter⟩ | ⟨p, hp, hp0, hpl, hafter⟩
      · rw [hnil, hafter]
        simpa using ih last next
      · rw [hp, hafter]
        have hrest := ih p next
        constructor
        · show List.Chain' (fun a b => a ≠ b)
            (last :: p :: (waitTaskGo p next rest).1)
          rw [List.chain'_cons]
          exact ⟨Ne.symm hpl, hrest.1⟩
        · show ∀ q ∈ p :: (waitTaskGo p next rest).1, q ≠ 0
          intro q hq
          rcases List.mem_cons.mp hq with hq | hq
          · rw [hq]; exact hp0
          · exact hrest.2 q hq

/-- Counterexample to claim C5 as stated: on the non-monotonic poll
sequence running(0.3), running(0.7), running(0.3), completed, `waitTask`
reports 0.3, 0.7, 0.3 — the value 0.3 is reported twice (not once per
distinct observed value), and the last report is lower than the one before
it. -/
theorem waitTask_repeats_distinct_value_counterexample :
    (waitTask (runningTask (3/10))
        [runningTask (7/10), runningTask (3/10), completedTask]).1
      = [3/10, 7/10, 3/10]
      ∧ ((waitTask (runningTask (3/10))
            [runningTask (7/10), runningTask (3/10), completedTask]).1).count (3/10)
        = 2
      ∧ ((3 : ℚ)/10) < 7/10 := by
  refine ⟨by with_unfolding_all rfl, by with_unfolding_all rfl, by norm_num⟩

/-- Claim C5, amended: `waitTask` never invokes the progress callback with
a value equal to the previously reported one (or equal to the initial
accumulator 0 for the first report) — adjacent reports are always distinct,
though a value may be reported again later after a different one. On the
observation sequence pending, running(0.3), running(0.3), running(0.7),
completed the callback fires exactly twice, with 0.3 then 0.7. -/
theorem waitTask_adjacent_reports_distinct :
    (∀ (task : Task) (polls : List Task),
        List.Chain' (fun a b => a ≠ b) ((0 : ℚ) :: (waitTask task polls).1))
      ∧ waitTask pendingTask
          [runningTask (3/10), runningTask (3/10), runningTask (7/10), completedTask]
        = ([3/10, 7/10], some (Except.ok completedTask)) := by
  constructor
  · intro task polls
    exact (waitTaskGo_chain polls 0 task).1
  · with_unfolding_all rfl

/-- Counterexample to claim C6 as stated: a `cancelled` phase is not
terminal for `waitTask` — the loop keeps polling past it, and here returns
the later completed task instead of propagating a failure. -/
theorem waitTask_cancelled_counterexample :
    Task.phase cancelledTask = some Phase.cancelled
      ∧ waitTask cancelledTask [completedTask]
        = ([], some (Except.ok completedTask)) :=
  ⟨rfl, by with_unfolding_all rfl⟩

/-- Claim C6, amended: `waitTask` treats `completed` and `failed` as the
only terminal phases; on `failed` it raises an error carrying
`status.errorMessage`, on `completed` it returns the final task object, and
on any other phase — `cancelled` included — it keeps polling. -/
theorem waitTask_terminal_phases (t : Task) (polls : List Task) :
    (Task.phase t = some Phase.failed →
        waitTask t polls
          = ([], some (Except.error
              (jsOptString t.type ++ " task failed. error: "
                ++ jsOptString (t.status.bind TaskStatus.errorMessage)))))
      ∧ (Task.phase t = some Phase.completed →
          waitTask t polls = ([], some (Except.ok t)))
      ∧ (Task.phase t ≠ some Phase.completed → Task.phase t ≠ some Phase.failed →
          (waitTask t []).2 = none) := by
  refine ⟨?_, ?_, ?_⟩
  · intro h
    rw [waitTask, waitTaskGo.eq_def, if_pos (Or.inr h), if_pos h, taskFailedMessage]
  · intro h
    rw [waitTask, waitTaskGo.eq_def, if_pos (Or.inl h),
      if_neg (by rw [h]; simp)]
  · intro hc hf
    rw [waitTask, waitTaskGo, if_neg (by
      intro hor
      rcases hor with hor | hor
      · exact hc hor
      · exact hf hor)]

/-- Witness for the amended C6, exercising all three branches: a failed
task (with the message of the spec's scenario 6), a completed task, and a
cancelled task that is still being polled. -/
theorem waitTask_terminal_phases_witness :
    waitTask failedTask []
        = ([], some (Except.error
            (jsOptString failedTask.type ++ " task failed. error: "
              ++ jsOptString (failedTask.status.bind TaskStatus.errorMessage))))
      ∧ waitTask completedTask [] = ([], some (Except.ok completedTask))
      ∧ (waitTask cancelledTask []).2 = none :=
  ⟨(waitTask_terminal_phases failedTask []).1 rfl,
    (waitTask_terminal_phases completedTask []).2.1 rfl,
    (waitTask_terminal_phases cancelledTask []).2.2 (by decide) (by decide)⟩

/-- Claim C10: `waitTask` never invokes the progress callback with the
value 0 — a polled state whose progress is 0 (or absent) never triggers the
callback, because the accumulator starts at 0 and the guard requires a
truthy progress value. -/
theorem waitTask_never_reports_zero (task : Task) (polls : List Task)
    (p : ℚ) (h : p ∈ (waitTask task polls).1) : p ≠ 0 :=
  (waitTaskGo_chain polls 0 task).2 p h

/-- Witness for C10 on a concrete run that reports 0.3. -/
theorem waitTask_never_reports_zero_witness :
    (3/10 : ℚ) ∈ (waitTask pendingTask [runningTask (3/10), completedTask]).1
      ∧ (3/10 : ℚ) ≠ 0 := by
  have hmem : (3/10 : ℚ) ∈ (waitTask pendingTask [runningTask (3/10), completedTask]).1 := by
    with_unfolding_all exact List.Mem.head _
  exact ⟨hmem,
    waitTask_never_reports_zero pendingTask [runningTask (3/10), completedTask]
      (3/10) hmem⟩

/-! ## Theorems: remote request errors -/

/-- Counterexample to claim C8 as stated: on a non-2xx response whose body
is JSON `null`, the unguarded access `data.errors` throws a `TypeError`, so
the raised error is not one whose text embeds the status code, status text
and body message — in particular it is not the formatted message the claim
predicts for that body (whose serialization is "null"). -/
theorem makeRequest_null_body_counterexample :
    makeRequest "/api/asset/abc"
        (HttpOutcome.httpError 500 "Internal Server Error" Json.null)
      = Except.error JsError.typeError
      ∧ makeRequest "/api/asset/abc"
          (HttpOutcome.httpError 500 "Internal Server Error" Json.null)
        ≠ Except.error
            (JsError.error
              "Request to /api/asset/abc failed (500 Internal Server Error): null") :=
  ⟨rfl, fun h => JsError.noConfusion (Except.error.inj h)⟩

/-- Claim C8, amended: any request receiving a non-2xx HTTP response whose
body is not JSON `null` raises an error whose text embeds the status code,
the status text, and a body message that is the first entry of the body's
`errors` array when that array is present and non-empty, and otherwise the
serialized response body; on a JSON `null` body the access to the body's
`errors` field instead throws a `TypeError` carrying no such text. -/
theorem makeRequest_error_embeds_status_and_message (path : String)
    (status : Nat) (statusText : String) (data : Json) :
    (∀ e rest, Json.errorsField data = some (e :: rest) →
        makeRequest path (HttpOutcome.httpError status statusText data)
          = Except.error
              (JsError.error
                ("Request to " ++ path ++ " failed (" ++ toString status ++ " "
                  ++ statusText ++ "): " ++ Json.display e)))
      ∧ (data ≠ Json.null →
          Json.errorsField data = none ∨ Json.errorsField data = some [] →
          makeRequest path (HttpOutcome.httpError status statusText data)
            = Except.error
                (JsError.error
                  ("Request to " ++ path ++ " failed (" ++ toString status ++ " "
                    ++ statusText ++ "): " ++ Json.stringify data)))
      ∧ (data = Json.null →
          makeRequest path (HttpOutcome.httpError status statusText data)
            = Except.error JsError.typeError) := by
  refine ⟨?_, ?_, ?_⟩
  · intro e rest h
    cases data with
    | null =>
      rw [show Json.errorsField Json.null = none from rfl] at h
      exact absurd h (by simp)
    | bool b =>
      rw [show Json.errorsField (Json.bool b) = none from rfl] at h
      exact absurd h (by simp)
    | num n =>
      rw [show Json.errorsField (Json.num n) = none from rfl] at h
      exact absurd h (by simp)
    | str s =>
      rw [show Json.errorsField (Json.str s) = none from rfl] at h
      exact absurd h (by simp)
    | arr elems =>
      rw [show Json.errorsField (Json.arr elems) = none from rfl] at h
      exact absurd h (by simp)
    | obj fields =>
      rw [makeRequest]
      · simp only [h]
      · exact fun hn => Json.noConfusion hn
  · intro hnull h
    cases data with
    | null => exact absurd rfl hnull
    | bool b =>
      rw [makeRequest]
      · rcases h with h | h <;> simp only [h]
      · exact fun hn => Json.noConfusion hn
    | num n =>
      rw [makeRequest]
      · rcases h with h | h <;> simp only [h]
      · exact fun hn => Json.noConfusion hn
    | str s =>
      rw [makeRequest]
      · rcases h with h | h <;> simp only [h]
      · exact fun hn => Json.noConfusion hn
    | arr elems =>
      rw [makeRequest]
      · rcases h with h | h <;> simp only [h]
      · exact fun hn => Json.noConfusion hn
    | obj fields =>
      rw [makeRequest]
      · rcases h with h | h <;> simp only [h]
      · exact fun hn => Json.noConfusion hn
  · intro h
    subst h
    rfl

/-- Witness for the amended C8, exercising all three branches: a 404 whose
body carries an `errors` array uses its first entry; a 500 with a plain
string body falls back to the serialized body; a 500 with a JSON `null`
body throws the `TypeError`. -/
theorem makeRequest_error_embeds_status_and_message_witness :
    (Json.errorsField (Json.obj [("errors", Json.arr [Json.str "asset not found"])])
        = some [Json.str "asset not found"]
      ∧ makeRequest "/api/asset/abc"
          (HttpOutcome.httpError 404 "Not Found"
            (Json.obj [("errors", Json.arr [Json.str "asset not found"])]))
        = Except.error
            (JsError.error
              ("Request to " ++ "/api/asset/abc" ++ " failed ("
                ++ toString (404 : Nat) ++ " " ++ "Not Found" ++ "): "
                ++ Json.display (Json.str "asset not found"))))
      ∧ (Json.errorsField (Json.str "oops") = none
        ∧ makeRequest "/api/asset/abc"
            (HttpOutcome.httpError 500 "Internal Server Error" (Json.str "oops"))
          = Except.error
              (JsError.error
                ("Request to " ++ "/api/asset/abc" ++ " failed ("
                  ++ toString (500 : Nat) ++ " " ++ "Internal Server Error"
                  ++ "): " ++ Json.stringify (Json.str "oops"))))
      ∧ makeRequest "/api/asset/xyz"
          (HttpOutcome.httpError 500 "Internal Server Error" Json.null)
        = Except.error JsError.typeError :=
  ⟨⟨rfl,
      (makeRequest_error_embeds_status_and_message "/api/asset/abc" 404 "Not Found"
          (Json.obj [("errors", Json.arr [Json.str "asset not found"])])).1
        (Json.str "asset not found") [] rfl⟩,
    ⟨rfl,
      (makeRequest_error_embeds_status_and_message "/api/asset/abc" 500
          "Internal Server Error" (Json.str "oops")).2.1
        (fun h => Json.noConfusion h) (Or.inl rfl)⟩,
    (makeRequest_error_embeds_status_and_message "/api/asset/xyz" 500
        "Internal Server Error" Json.null).2.2 rfl⟩

end VideoNft
